import Mathlib

/-!
Verification development for the DataMap execution engine of
signalwire-agents (src/signalwire_agents/cli/test_swaig.py).

The Python functions simple_template_expand and execute_datamap_function
are shallowly embedded below.  JSON-like Python values are modelled by the
inductive type J (dict keys are strings, as in the JSON configurations the
engine consumes); Python exceptions are modelled explicitly with
Except PyExn, raised exactly at the operations where the dynamically
typed source could raise, and caught exactly where the source catches.
The HTTP layer is abstracted as an oracle assigning an outcome to each
webhook attempt (attempts are numbered in the order they are made).
-/

set_option maxRecDepth 10000

/-- JSON-like Python value: None, bool, int, str, list, dict. -/
inductive J where
  | null : J
  | bool : Bool → J
  | int : Int → J
  | str : String → J
  | list : List J → J
  | dict : List (String × J) → J

/-- A Python exception: a kind (class name) and a message. -/
structure PyExn where
  kind : String
  msg : String
deriving DecidableEq

/-- Monad for Python code that can raise. -/
abbrev PyM := Except PyExn

/-- Python dict lookup (first binding wins, mirroring unique keys). -/
def dget : List (String × J) → String → Option J
  | [], _ => none
  | (k, v) :: rest, key => if k = key then some v else dget rest key

/-- Python dict assignment: an existing key keeps its position, a new key
is appended at the end. -/
def dset : List (String × J) → String → J → List (String × J)
  | [], key, v => [(key, v)]
  | (k, w) :: rest, key, v =>
      if k = key then (k, v) :: rest else (k, w) :: dset rest key v

/-- Python dict.update: assign every binding of the second dict in order. -/
def pyUpdate (base : List (String × J)) (upd : List (String × J)) :
    List (String × J) :=
  upd.foldl (fun acc kv => dset acc kv.1 kv.2) base

mutual
/-- Structural equality on J, modelling Python == for membership tests.
Dict comparison here is order-sensitive; the engine never compares dicts,
so this corner is unexercised. -/
def jeq : J → J → Bool
  | J.null, J.null => true
  | J.bool a, J.bool b => a == b
  | J.int a, J.int b => a == b
  | J.str a, J.str b => a == b
  | J.list xs, J.list ys => jeqL xs ys
  | J.dict xs, J.dict ys => jeqD xs ys
  | _, _ => false

/-- Pointwise equality of J lists. -/
def jeqL : List J → List J → Bool
  | [], [] => true
  | x :: xs, y :: ys => jeq x y && jeqL xs ys
  | _, _ => false

/-- Pointwise equality of J dict entry lists. -/
def jeqD : List (String × J) → List (String × J) → Bool
  | [], [] => true
  | (k, v) :: xs, (k2, v2) :: ys => k == k2 && jeq v v2 && jeqD xs ys
  | _, _ => false
end

/-- Python truthiness of a value. -/
def pyTruthy : J → Bool
  | J.null => false
  | J.bool b => b
  | J.int n => n ≠ 0
  | J.str s => s ≠ ""
  | J.list xs => ¬ xs.isEmpty
  | J.dict kvs => ¬ kvs.isEmpty

/-- Does the list of characters start with the given pattern? -/
def listIsPref : List Char → List Char → Bool
  | [], _ => true
  | _ :: _, [] => false
  | p :: ps, c :: cs => p = c ∧ listIsPref ps cs

/-- Is the first list a contiguous sublist of the second
(Python substring containment)? -/
def listHasSub (needle : List Char) : List Char → Bool
  | [] => listIsPref needle []
  | c :: cs => listIsPref needle (c :: cs) || listHasSub needle cs

/-- Python substring containment on strings. -/
def strHasSub (hay needle : String) : Bool :=
  listHasSub needle.data hay.data

/-- Python membership test x in y, raising TypeError exactly where Python
does (non-iterable right operand, or a string haystack with a non-string
needle). -/
def pyInE (needle hay : J) : PyM Bool :=
  match hay with
  | J.dict kvs =>
      match needle with
      | J.str s => pure (dget kvs s).isSome
      | _ => pure false
  | J.list xs => pure (xs.any (fun x => jeq x needle))
  | J.str s =>
      match needle with
      | J.str n => pure (strHasSub s n)
      | _ => Except.error ⟨"TypeError", "in <string> requires string as left operand"⟩
  | _ => Except.error ⟨"TypeError", "argument is not iterable"⟩

/-- Python subscript y[x] with a J key, raising where Python does. -/
def pyGetItemE (hay needle : J) : PyM J :=
  match hay with
  | J.dict kvs =>
      match needle with
      | J.str s =>
          match dget kvs s with
          | some v => pure v
          | none => Except.error ⟨"KeyError", s⟩
      | _ => Except.error ⟨"KeyError", "missing"⟩
  | J.list xs =>
      match needle with
      | J.int i =>
          if 0 ≤ i ∧ i.toNat < xs.length then pure (xs.getD i.toNat J.null)
          else Except.error ⟨"IndexError", "list index out of range"⟩
      | _ => Except.error ⟨"TypeError", "list indices must be integers"⟩
  | J.str _ => Except.error ⟨"TypeError", "string indices must be integers"⟩
  | _ => Except.error ⟨"TypeError", "object is not subscriptable"⟩

/-- Python d.get(key, default): AttributeError on a non-dict receiver. -/
def pyGetD (hay : J) (key : String) (dflt : J) : PyM J :=
  match hay with
  | J.dict kvs => pure ((dget kvs key).getD dflt)
  | _ => Except.error ⟨"AttributeError", "object has no attribute get"⟩

/-- Python d.items(): AttributeError on a non-dict receiver. -/
def pyItemsE (hay : J) : PyM (List (String × J)) :=
  match hay with
  | J.dict kvs => pure kvs
  | _ => Except.error ⟨"AttributeError", "object has no attribute items"⟩

/-- Python s.upper() for ASCII strings: AttributeError on non-strings. -/
def pyUpperE (v : J) : PyM String :=
  match v with
  | J.str s => pure (String.mk (s.data.map Char.toUpper))
  | _ => Except.error ⟨"AttributeError", "object has no attribute upper"⟩

/-- Expect a string value (where Python would raise a TypeError when some
string operation is applied to a non-string). -/
def asStrE (v : J) : PyM String :=
  match v with
  | J.str s => pure s
  | _ => Except.error ⟨"TypeError", "expected string"⟩

/-- Expect an integer (a Python bool is an int). -/
def asIntE (v : J) : PyM Int :=
  match v with
  | J.int n => pure n
  | J.bool b => pure (if b then 1 else 0)
  | _ => Except.error ⟨"TypeError", "expected integer"⟩

/-- Dict keys of J are strings (JSON data model): storing under a
non-string key is outside the embedded domain. -/
def asKeyE (v : J) : PyM String :=
  match v with
  | J.str s => pure s
  | _ => Except.error ⟨"TypeError", "expected string key"⟩

/-- Python iteration over a value: list elements, string characters,
dict keys; TypeError otherwise. -/
def pyIterE (v : J) : PyM (List J) :=
  match v with
  | J.list xs => pure xs
  | J.str s => pure (s.data.map (fun c => J.str (String.mk [c])))
  | J.dict kvs => pure (kvs.map (fun kv => J.str kv.1))
  | _ => Except.error ⟨"TypeError", "object is not iterable"⟩

/-- The single-quote character. -/
def squote : Char := Char.ofNat 39

/-- The double-quote character. -/
def dquote : Char := Char.ofNat 34

/-- The backslash character. -/
def bslash : Char := Char.ofNat 92

/-- The left-brace character. -/
def lbrace : Char := Char.ofNat 123

/-- The right-brace character. -/
def rbrace : Char := Char.ofNat 125

/-- Escape one character inside a Python string repr quoted with q. -/
def pyEscChar (q : Char) (c : Char) : List Char :=
  if c = bslash then [bslash, bslash]
  else if c = q then [bslash, q]
  else if c = '\n' then [bslash, 'n']
  else if c = '\r' then [bslash, 'r']
  else if c = '\t' then [bslash, 't']
  else [c]

/-- Python repr of a string: single quotes unless the string holds a
single quote and no double quote; backslash escapes (non-printable
characters beyond newline, carriage return and tab are not modelled,
the engine never produces them). -/
def pyQuote (s : String) : String :=
  let q := if s.data.contains squote ∧ ¬ s.data.contains dquote
           then dquote else squote
  String.mk ([q] ++ s.data.foldr (fun c acc => pyEscChar q c ++ acc) [q])

mutual
/-- Python repr of a J value (str(x) and repr(x) agree except on
top-level strings). -/
def pyReprS : J → String
  | J.null => "None"
  | J.bool b => cond b "True" "False"
  | J.int n => toString n
  | J.str s => pyQuote s
  | J.list xs => "[" ++ pyReprL xs ++ "]"
  | J.dict kvs => "\x7b" ++ pyReprD kvs ++ "\x7d"

/-- Comma-joined reprs of list elements. -/
def pyReprL : List J → String
  | [] => ""
  | [x] => pyReprS x
  | x :: y :: rest => pyReprS x ++ ", " ++ pyReprL (y :: rest)

/-- Comma-joined regular entries of a dict repr. -/
def pyReprD : List (String × J) → String
  | [] => ""
  | [(k, v)] => pyQuote k ++ ": " ++ pyReprS v
  | (k, v) :: e :: rest => pyQuote k ++ ": " ++ pyReprS v ++ ", " ++ pyReprD (e :: rest)
end

/-- Python str() of a J value. -/
def pyStr : J → String
  | J.str s => s
  | v => pyReprS v

/-- Escape one character in a JSON string literal. -/
def jsonEscChar (c : Char) : List Char :=
  if c = bslash then [bslash, bslash]
  else if c = dquote then [bslash, dquote]
  else if c = '\n' then [bslash, 'n']
  else if c = '\r' then [bslash, 'r']
  else if c = '\t' then [bslash, 't']
  else [c]

/-- JSON string literal for s. -/
def jsonQuote (s : String) : String :=
  String.mk ([dquote] ++ s.data.foldr (fun c acc => jsonEscChar c ++ acc) [dquote])

mutual
/-- Python json.dumps with default separators. -/
def jsonDumps : J → String
  | J.null => "null"
  | J.bool b => cond b "true" "false"
  | J.int n => toString n
  | J.str s => jsonQuote s
  | J.list xs => "[" ++ jsonDumpsL xs ++ "]"
  | J.dict kvs => "\x7b" ++ jsonDumpsD kvs ++ "\x7d"

/-- Comma-joined JSON list elements. -/
def jsonDumpsL : List J → String
  | [] => ""
  | [x] => jsonDumps x
  | x :: y :: rest => jsonDumps x ++ ", " ++ jsonDumpsL (y :: rest)

/-- Comma-joined JSON object entries. -/
def jsonDumpsD : List (String × J) → String
  | [] => ""
  | [(k, v)] => jsonQuote k ++ ": " ++ jsonDumps v
  | (k, v) :: e :: rest => jsonQuote k ++ ": " ++ jsonDumps v ++ ", " ++ jsonDumpsD (e :: rest)
end

mutual
/-- Scanner for the regex op followed by a braced group with a non-empty
body free of right braces (the patterns of simple_template_expand).
State: looking for the opener character. -/
def scanGroups (op : Char) : List Char → List (List Char)
  | [] => []
  | c :: rest => if c = op then scanAfterOp op rest else scanGroups op rest

/-- Scanner state: the opener was just seen, expect a left brace. -/
def scanAfterOp (op : Char) : List Char → List (List Char)
  | [] => []
  | c :: rest =>
      if c = lbrace then scanGroup op [] rest
      else if c = op then scanAfterOp op rest
      else scanGroups op rest

/-- Scanner state: inside a braced group, accumulating its body. -/
def scanGroup (op : Char) (acc : List Char) : List Char → List (List Char)
  | [] => []
  | c :: rest =>
      if c = rbrace then
        if acc.isEmpty then scanGroups op rest
        else acc.reverse :: scanGroups op rest
      else scanGroup op (c :: acc) rest
end

/-- All group bodies matched by the pattern for op, left to right,
non-overlapping, as re.finditer yields them. -/
def findGroups (op : Char) (s : String) : List String :=
  (scanGroups op s.data).map String.mk

/-- The full matched placeholder text (match.group(0)). -/
def groupPattern (op : Char) (g : String) : String :=
  String.mk (op :: lbrace :: (g.data ++ [rbrace]))

/-- One step of Python str.replace on character lists, fuelled by the
haystack length (each step consumes at least one character, so the fuel
never runs out when the pattern is non-empty). -/
def replaceAllF : Nat → List Char → List Char → List Char → List Char
  | _, [], _, _ => []
  | 0, s, _, _ => s
  | n + 1, c :: rest, pat, rep =>
      if listIsPref pat (c :: rest) then
        rep ++ replaceAllF n ((c :: rest).drop pat.length) pat rep
      else c :: replaceAllF n rest pat rep

/-- Python str.replace(s, pat, rep), replacing every non-overlapping
occurrence left to right (the empty pattern interleaves, as in Python;
the engine never uses an empty pattern). -/
def strReplace (s pat rep : String) : String :=
  if pat.data.isEmpty then
    String.mk (rep.data ++ s.data.foldr (fun c acc => c :: (rep.data ++ acc)) [])
  else String.mk (replaceAllF s.data.length s.data pat.data rep.data)

/-- Find the first occurrence of a character, splitting the list there. -/
def splitAtChar (target : Char) : List Char → Option (List Char × List Char)
  | [] => none
  | c :: rest =>
      if c = target then some ([], rest)
      else match splitAtChar target rest with
           | some (a, b) => some (c :: a, b)
           | none => none

/-- The bracket-aware path splitter of simple_template_expand, fuelled by
the path length (every step consumes at least one character).
Arguments: fuel, remaining characters, current accumulated name part. -/
def parseBPF : Nat → List Char → List Char → List (List Char)
  | _, [], cur => if cur.isEmpty then [] else [cur]
  | 0, _ :: _, cur => if cur.isEmpty then [] else [cur]
  | n + 1, c :: rest, cur =>
      if c = '[' then
        let flushed := if cur.isEmpty then [] else [cur]
        match splitAtChar ']' rest with
        | some (idx, rem) =>
            let rem2 := match rem with
                        | d :: r2 => if d = '.' then r2 else rem
                        | [] => []
            flushed ++ ('[' :: (idx ++ [']'])) :: parseBPF n rem2 []
        | none => flushed ++ parseBPF n rest ['[']
      else if c = '.' then
        (if cur.isEmpty then [] else [cur]) ++ parseBPF n rest []
      else parseBPF n rest (cur ++ [c])

/-- Split a template variable path on brackets and dots, as the source
does when the path contains both an opening and a closing bracket. -/
def parseBracketPath (vp : String) : List (List Char) :=
  parseBPF vp.data.length vp.data []

/-- Decimal digits to a natural number, if the list is non-empty and all
digits. -/
def digitsToNat : List Char → Option Nat
  | [] => none
  | ds =>
      if ds.all Char.isDigit then
        some (ds.foldl (fun acc c => 10 * acc + (c.toNat - 48)) 0)
      else none

/-- Strip surrounding whitespace from a character list. -/
def pyIntTrim (s : List Char) : List Char :=
  ((s.dropWhile Char.isWhitespace).reverse.dropWhile Char.isWhitespace).reverse

/-- Python int(str): optional surrounding whitespace, optional sign,
decimal digits; ValueError otherwise (underscore grouping is not
modelled, the engine never produces it). -/
def parseIntE (s : List Char) : PyM Int :=
  match pyIntTrim s with
  | '+' :: ds =>
      match digitsToNat ds with
      | some n => pure (Int.ofNat n)
      | none => Except.error ⟨"ValueError", "invalid literal for int()"⟩
  | '-' :: ds =>
      match digitsToNat ds with
      | some n => pure (-(Int.ofNat n))
      | none => Except.error ⟨"ValueError", "invalid literal for int()"⟩
  | ds =>
      match digitsToNat ds with
      | some n => pure (Int.ofNat n)
      | none => Except.error ⟨"ValueError", "invalid literal for int()"⟩

/-- Python str.split(sep) for a one-character separator: the accumulator
holds the current field reversed. -/
def splitOnCharAux (sep : Char) : List Char → List Char → List String
  | [], cur => [String.mk cur.reverse]
  | c :: rest, cur =>
      if c = sep then String.mk cur.reverse :: splitOnCharAux sep rest []
      else splitOnCharAux sep rest (c :: cur)

/-- Python s.split(sep): the empty string yields one empty field. -/
def splitOnChar (sep : Char) (s : String) : List String :=
  splitOnCharAux sep s.data []

/-- The sentinel value for an unresolvable reference. -/
def missing (vp : String) : J := J.str ("<MISSING:" ++ vp ++ ">")

/-- Walk the data structure along bracket-split parts; a guarded failure
breaks with the sentinel, int() failure raises (caught by the caller). -/
def navBracketE (vp : String) : List (List Char) → J → PyM J
  | [], v => pure v
  | p :: ps, v =>
      if p.head? = some '[' ∧ p.getLast? = some ']' then
        match parseIntE ((p.drop 1).dropLast), v with
        | Except.error e, _ => Except.error e
        | Except.ok idx, J.list xs =>
            if 0 ≤ idx ∧ idx.toNat < xs.length then
              navBracketE vp ps (xs.getD idx.toNat J.null)
            else pure (missing vp)
        | Except.ok _, _ => pure (missing vp)
      else
        match v with
        | J.dict kvs =>
            match dget kvs (String.mk p) with
            | some v2 => navBracketE vp ps v2
            | none => pure (missing vp)
        | _ => pure (missing vp)

/-- Walk the data structure along dot-split parts (no brackets). -/
def navPlain (vp : String) : List String → J → J
  | [], v => v
  | p :: ps, v =>
      match v with
      | J.dict kvs =>
          match dget kvs p with
          | some v2 => navPlain vp ps v2
          | none => missing vp
      | _ => missing vp

/-- Resolve one template variable path against the data, as the body of
the finditer loop does: bracket-aware navigation inside
try/except (ValueError, TypeError, IndexError), else plain dotted
navigation. -/
def resolveVarE (vp : String) (d : J) : PyM J :=
  if vp.data.contains '[' && vp.data.contains ']' then
    match navBracketE vp (parseBracketPath vp) d with
    | Except.ok v => Except.ok v
    | Except.error e =>
        if e.kind = "ValueError" ∨ e.kind = "TypeError" ∨ e.kind = "IndexError"
        then Except.ok (missing vp)
        else Except.error e
  else Except.ok (navPlain vp (splitOnChar '.' vp) d)

/-- Apply the matches of one pattern pass in order: each match.group(0)
is replaced everywhere in the evolving result by str of its resolved
value. -/
def applyGroupsE (op : Char) (d : J) : List String → String → PyM String
  | [], r => pure r
  | g :: gs, r => do
      let v ← resolveVarE g d
      applyGroupsE op d gs (strReplace r (groupPattern op g) (pyStr v))

/-- simple_template_expand from the source: empty template short-circuit,
then one pass over the matches of the dollar pattern found in the
template, then one pass over the matches of the percent pattern found in
the intermediate result. -/
def simple_template_expand (template : String) (d : J) : PyM String :=
  if template = "" then pure ""
  else do
    let r1 ← applyGroupsE '$' d (findGroups '$' template) template
    applyGroupsE '%' d (findGroups '%' r1) r1

/-- Outcome of one HTTP request: either the requests call raised, or a
response arrived with a status code, an optional parsed JSON body (none
when response.json() raises), and the raw text. -/
inductive HttpOutcome where
  | exn : String → HttpOutcome
  | resp : Nat → Option J → String → HttpOutcome

/-- A network oracle: the outcome of the i-th webhook attempt. -/
abbrev Net := Nat → HttpOutcome

/-- The response_data derived from a response: the parsed JSON body, or
the synthesized parse_error object the source builds on a JSON decode
failure. -/
def responseData (status : Nat) (jsonBody : Option J) (text : String) : J :=
  match jsonBody with
  | some j => j
  | none => J.dict [("text", J.str text), ("status_code", J.int status),
                    ("parse_error", J.bool true), ("raw_response", J.str text)]

/-- The error-key scan the source runs over a list of candidate keys:
fail on the first key present with a truthy value. -/
def checkKeysE (rd : J) : List J → PyM Bool
  | [] => pure false
  | k :: ks => do
      let b ← pyInE k rd
      if b then do
        let v ← pyGetItemE rd k
        if pyTruthy v then pure true else checkKeysE rd ks
      else checkKeysE rd ks

/-- Normalization of a webhook's error_keys value: a string becomes a
one-element list, a non-list becomes the empty list. -/
def normalizeErrorKeys (ek : J) : List J :=
  match ek with
  | J.str s => [J.str s]
  | J.list xs => xs
  | _ => []

/-- The body of the try block of one webhook attempt: dispatch on the
method (unsupported methods raise ValueError), derive response_data,
then the three failure checks in order - status outside 200-299,
explicit parse_error/protocol_error keys, configured error_keys. -/
def classifyE (w : J) (method : String) (outc : HttpOutcome) : PyM (Bool × J) :=
  if method = "GET" ∨ method = "POST" ∨ method = "PUT" ∨ method = "PATCH"
     ∨ method = "DELETE" then
    match outc with
    | HttpOutcome.exn msg => Except.error ⟨"RequestException", msg⟩
    | HttpOutcome.resp status jsonBody text =>
        let rd := responseData status jsonBody text
        if status < 200 ∨ status > 299 then pure (true, rd)
        else do
          let f2 ← checkKeysE rd [J.str "parse_error", J.str "protocol_error"]
          if f2 then pure (true, rd)
          else do
            let hasEK ← pyInE (J.str "error_keys") w
            if hasEK then do
              let ek ← pyGetItemE w (J.str "error_keys")
              let f3 ← checkKeysE rd (normalizeErrorKeys ek)
              pure (f3, rd)
            else pure (false, rd)
  else Except.error ⟨"ValueError", "Unsupported HTTP method: " ++ method⟩

/-- The try/except around one webhook attempt: any exception raised
inside is caught, the webhook is marked failed and response_data becomes
the protocol_error object the source builds. -/
def classifyAttempt (w : J) (method : String) (outc : HttpOutcome) : Bool × J :=
  match classifyE w method outc with
  | Except.ok r => r
  | Except.error e =>
      (true, J.dict [("protocol_error", J.bool true), ("error", J.str e.msg)])

/-- Request payload construction for one webhook: for POST/PUT/PATCH the
first present key among params, body, data is used; params maps and body
maps are expanded value by value, string body and string data are
expanded as one template, and a non-string data is serialized without
expansion.  GET/DELETE build no payload. -/
def buildRequestData (w : J) (ctx : List (String × J)) (method : String) :
    PyM (Option String) := do
  if method = "POST" ∨ method = "PUT" ∨ method = "PATCH" then
    let hasP ← pyInE (J.str "params") w
    if hasP then do
      let ps ← pyGetItemE w (J.str "params")
      let items ← pyItemsE ps
      let expanded ← items.mapM (fun kv => do
        let s ← simple_template_expand (pyStr kv.2) (J.dict ctx)
        pure (kv.1, J.str s))
      pure (some (jsonDumps (J.dict expanded)))
    else do
      let hasB ← pyInE (J.str "body") w
      if hasB then do
        let b ← pyGetItemE w (J.str "body")
        match b with
        | J.str s => do
            let r ← simple_template_expand s (J.dict ctx)
            pure (some r)
        | _ => do
            let items ← pyItemsE b
            let expanded ← items.mapM (fun kv => do
              let s ← simple_template_expand (pyStr kv.2) (J.dict ctx)
              pure (kv.1, J.str s))
            pure (some (jsonDumps (J.dict expanded)))
      else do
        let hasD ← pyInE (J.str "data") w
        if hasD then do
          let dv ← pyGetItemE w (J.str "data")
          match dv with
          | J.str s => do
              let r ← simple_template_expand s (J.dict ctx)
              pure (some r)
          | _ => pure (some (jsonDumps dv))
        else pure none
  else pure none

/-- Everything one loop iteration does for a webhook up to and including
the try/except: read url, method and headers, expand url and headers,
build the request payload, then classify the attempt's outcome.
Exceptions raised before the try block propagate. -/
def tryWebhook (net : Net) (ctx : List (String × J)) (i : Nat) (w : J) :
    PyM (Bool × J) := do
  let url0 ← pyGetD w "url" (J.str "")
  let m0 ← pyGetD w "method" (J.str "POST")
  let method ← pyUpperE m0
  let h0 ← pyGetD w "headers" (J.dict [])
  let urlS ← asStrE url0
  let _ ← simple_template_expand urlS (J.dict ctx)
  let hitems ← pyItemsE h0
  let _ ← hitems.mapM (fun kv => simple_template_expand (pyStr kv.2) (J.dict ctx))
  let _ ← buildRequestData w ctx method
  pure (classifyAttempt w method (net i))

/-- The transient expansion context for one foreach element. -/
def foreachThis (item : J) : J :=
  match item with
  | J.dict _ => J.dict [("this", item)]
  | _ => J.dict [("this", J.dict [("value", item)])]

/-- Python list slicing l[:m] for an integer bound. -/
def pySliceTo (xs : List J) (m : Int) : List J :=
  if m < 0 then xs.take ((xs.length : Int) + m).toNat else xs.take m.toNat

/-- The foreach block of a successful webhook: read the config with its
defaults, look the input_key up in response_data, and when it holds a
non-empty list, expand the append template per element (capped at max)
and store the concatenation under output_key in the webhook context. -/
def processForeach (fc : J) (rd : J) (wctx : List (String × J)) :
    PyM (List (String × J)) := do
  let ik ← pyGetD fc "input_key" (J.str "data")
  let okey ← pyGetD fc "output_key" (J.str "result")
  let mx ← pyGetD fc "max" (J.int 100)
  let ap ← pyGetD fc "append" (J.str "$\x7bthis.value\x7d")
  let hasIk ← pyInE ik rd
  let inputData ← if hasIk then do
      let v ← pyGetItemE rd ik
      pure (match v with | J.list xs => some xs | _ => none)
    else pure (none : Option (List J))
  match inputData with
  | some xs =>
      if xs.isEmpty then pure wctx
      else do
        let mxi ← asIntE mx
        let parts ← (pySliceTo xs mxi).mapM (fun item => do
          let ap2 ← asStrE ap
          simple_template_expand ap2 (foreachThis item))
        let okey2 ← asKeyE okey
        pure (dset wctx okey2 (J.str (String.join parts)))
  | none => pure wctx

/-- Render an output template against a context: a dict is rendered
entry by entry into a dict, anything else is stringified and expanded as
one template. -/
def renderOutputTemplate (o : J) (ctx : List (String × J)) : PyM J :=
  match o with
  | J.dict kvs => do
      let pairs ← kvs.mapM (fun kv => do
        let s ← simple_template_expand (pyStr kv.2) (J.dict ctx)
        pure (kv.1, J.str s))
      pure (J.dict pairs)
  | _ => do
      let s ← simple_template_expand (pyStr o) (J.dict ctx)
      pure (J.str s)

/-- What a successful webhook does: extend a copy of the context with
the response (under array for list responses, else under response), run
foreach if configured, then render the webhook-level output if present,
else return response_data itself. -/
def processSuccess (w : J) (rd : J) (ctx : List (String × J)) : PyM J := do
  let wctx0 := match rd with
    | J.list _ => dset ctx "array" rd
    | _ => dset ctx "response" rd
  let hasF ← pyInE (J.str "foreach") w
  let wctx ← if hasF then do
      let fc ← pyGetItemE w (J.str "foreach")
      processForeach fc rd wctx0
    else pure wctx0
  let hasO ← pyInE (J.str "output") w
  if hasO then do
    let wo ← pyGetItemE w (J.str "output")
    renderOutputTemplate wo wctx
  else pure rd

/-- One expression rule: rules lacking a pattern or an output are
skipped; a rule whose pattern occurs in str(args) returns its output,
stringified and expanded as a single template. -/
def tryExpression (e : J) (args : List (String × J)) (ctx : List (String × J)) :
    PyM (Option J) := do
  let hasP ← pyInE (J.str "pattern") e
  if hasP then do
    let hasO ← pyInE (J.str "output") e
    if hasO then do
      let p ← pyGetItemE e (J.str "pattern")
      let m ← pyInE p (J.str (pyStr (J.dict args)))
      if m then do
        let o ← pyGetItemE e (J.str "output")
        let s ← simple_template_expand (pyStr o) (J.dict ctx)
        pure (some (J.str s))
      else pure none
    else pure none
  else pure none

/-- The expression loop: first rule that matches returns immediately. -/
def exprLoop (args ctx : List (String × J)) : List J → PyM (Option J)
  | [] => pure none
  | e :: es => do
      let r ← tryExpression e args ctx
      match r with
      | some v => pure (some v)
      | none => exprLoop args ctx es

/-- Step 1 of the pipeline: run the expression rules when configured. -/
def exprPhase (actual : J) (args ctx : List (String × J)) : PyM (Option J) := do
  let hasE ← pyInE (J.str "expressions") actual
  if hasE then do
    let ev ← pyGetItemE actual (J.str "expressions")
    let es ← pyIterE ev
    exprLoop args ctx es
  else pure none

/-- The webhook loop: attempts are numbered from i; a failed attempt
falls through to the next webhook, the first success is processed and
returned. -/
def webhookLoop (net : Net) (ctx : List (String × J)) :
    List J → Nat → PyM (Option J)
  | [], _ => pure none
  | w :: ws, i => do
      let fr ← tryWebhook net ctx i w
      if fr.1 then webhookLoop net ctx ws (i + 1)
      else do
        let r ← processSuccess w fr.2 ctx
        pure (some r)

/-- Step 2 of the pipeline: run the webhooks when configured. -/
def webhookPhase (net : Net) (actual : J) (ctx : List (String × J)) :
    PyM (Option J) := do
  let hasW ← pyInE (J.str "webhooks") actual
  if hasW then do
    let wv ← pyGetItemE actual (J.str "webhooks")
    let ws ← pyIterE wv
    webhookLoop net ctx ws 0
  else pure none

/-- The error object returned when everything failed and no fallback
output is configured. -/
def allFailedError : J :=
  J.dict [("error", J.str "All webhooks failed and no fallback output defined"),
          ("status", J.str "failed")]

/-- Step 5 of the pipeline: the DataMap-level fallback output when
present, else the generic error object. -/
def fallbackPhase (actual : J) (ctx : List (String × J)) : PyM J := do
  let hasO ← pyInE (J.str "output") actual
  if hasO then do
    let o ← pyGetItemE actual (J.str "output")
    renderOutputTemplate o ctx
  else pure allFailedError

/-- datamap_config.get("data_map", datamap_config). -/
def actualOf (cfg : List (String × J)) : J :=
  (dget cfg "data_map").getD (J.dict cfg)

/-- The initial context: args under the args key and flattened on top. -/
def initContext (args : List (String × J)) : List (String × J) :=
  pyUpdate [("args", J.dict args)] args

/-- execute_datamap_function from the source: expressions, then webhooks
in order until one succeeds, then the fallback output. -/
def execute_datamap_function (net : Net) (cfg : List (String × J))
    (args : List (String × J)) : PyM J := do
  let actual := actualOf cfg
  let ctx := initContext args
  let r1 ← exprPhase actual args ctx
  match r1 with
  | some r => pure r
  | none => do
      let r2 ← webhookPhase net actual ctx
      match r2 with
      | some r => pure r
      | none => fallbackPhase actual ctx

/-- Does a dict body hold the given key (a J value) with a truthy value?
This is the spec's notion of a truthy error key; a non-string key never
matches a JSON object. -/
def truthyKeyJ (body : List (String × J)) (k : J) : Bool :=
  match k with
  | J.str s =>
      match dget body s with
      | some v => pyTruthy v
      | none => false
  | _ => false

/-- Does a parsed response hold the given string key with a truthy
value?  False for non-dict responses, which hold no keys. -/
def truthyKey (v : J) (k : String) : Bool :=
  match v with
  | J.dict kvs => truthyKeyJ kvs (J.str k)
  | _ => false

/-- The configured error keys of a webhook dict, normalized as the
source normalizes them. -/
def errorKeysOf (wl : List (String × J)) : List J :=
  match dget wl "error_keys" with
  | some ek => normalizeErrorKeys ek
  | none => []

/-- Example network: attempt 0 gets HTTP 500, later attempts HTTP 200
with an object body. -/
def exNet1 : Net := fun i =>
  if i = 0 then
    HttpOutcome.resp 500 (some (J.dict [("ok", J.str "bad")])) ""
  else HttpOutcome.resp 200 (some (J.dict [("ok", J.bool true)])) ""

/-- Example webhook whose attempt fails with HTTP 500 under exNet1. -/
def exW1 : J := J.dict [("url", J.str "http://a"), ("method", J.str "POST"),
  ("output", J.str "first ${response.ok}")]

/-- Example webhook whose attempt succeeds under exNet1. -/
def exW2 : J := J.dict [("url", J.str "http://b"), ("method", J.str "POST"),
  ("output", J.str "second ${response.ok}")]

/-- Example DataMap body holding the two example webhooks. -/
def exDm1 : List (String × J) := [("webhooks", J.list [exW1, exW2])]

/-- Example configuration wrapping exDm1 under the data_map key. -/
def exCfg1 : List (String × J) := [("data_map", J.dict exDm1)]

/-- Example network where every attempt gets HTTP 500. -/
def exNet500 : Net := fun _ =>
  HttpOutcome.resp 500 (some (J.dict [("ok", J.int 1)])) ""

/-- Example DataMap body with one webhook and a dict fallback output. -/
def exDm2 : List (String × J) :=
  [("webhooks", J.list [J.dict [("url", J.str "u"), ("output", J.str "w")]]),
   ("output", J.dict [("response", J.str "fb ${args.q}"), ("s", J.str "t")])]

/-- Example configuration wrapping exDm2 under the data_map key. -/
def exCfg2 : List (String × J) := [("data_map", J.dict exDm2)]

/-- Example expression rule whose pattern zzz matches nothing here. -/
def exE1 : J := J.dict [("pattern", J.str "zzz"), ("output", J.str "no")]

/-- Example expression rule matching Paris. -/
def exE2 : J := J.dict [("pattern", J.str "Paris"),
  ("output", J.str "matched $\x7bargs.city\x7d")]

/-- Example later expression rule that would also match Paris. -/
def exE3 : J := J.dict [("pattern", J.str "Paris"), ("output", J.str "later")]

/-- Example DataMap body with three expression rules and a webhook. -/
def exDm4 : List (String × J) :=
  [("expressions", J.list [exE1, exE2, exE3]),
   ("webhooks", J.list [J.dict [("url", J.str "u"), ("output", J.str "w")]])]

/-- Example configuration wrapping exDm4 under the data_map key. -/
def exCfg4 : List (String × J) := [("data_map", J.dict exDm4)]

/-- Example network answering HTTP 200 with an empty items array. -/
def exNetEmpty : Net := fun _ =>
  HttpOutcome.resp 200 (some (J.dict [("items", J.list [])])) ""

/-- Example foreach configuration reading items into joined. -/
def exFc6 : J := J.dict [("input_key", J.str "items"),
  ("output_key", J.str "joined")]

/-- Example configuration with a foreach webhook whose output template
references the foreach output key. -/
def exCfg6 : List (String × J) :=
  [("data_map", J.dict [("webhooks", J.list [J.dict [("url", J.str "u"),
    ("foreach", exFc6), ("output", J.str "got $\x7bjoined\x7d")]])])]

/-! Helper lemmas about the PyM monad and totality of the expander. -/

theorem pym_bind_ok {α β : Type} (a : α) (f : α → PyM β) :
    (Except.ok a >>= f) = f a := rfl

theorem pym_bind_err {α β : Type} (e : PyExn) (f : α → PyM β) :
    ((Except.error e : PyM α) >>= f) = Except.error e := rfl

theorem pym_pure_eq {α : Type} (a : α) : (pure a : PyM α) = Except.ok a := rfl

theorem parseIntE_shape (s : List Char) :
    (∃ n, parseIntE s = Except.ok n) ∨
      parseIntE s = Except.error ⟨"ValueError", "invalid literal for int()"⟩ := by
  unfold parseIntE
  split
  · split
    · exact Or.inl ⟨_, rfl⟩
    · exact Or.inr rfl
  · split
    · exact Or.inl ⟨_, rfl⟩
    · exact Or.inr rfl
  · split
    · exact Or.inl ⟨_, rfl⟩
    · exact Or.inr rfl

theorem navBracketE_shape (vp : String) :
    ∀ (parts : List (List Char)) (d : J),
      (∃ v, navBracketE vp parts d = Except.ok v) ∨
        navBracketE vp parts d =
          Except.error ⟨"ValueError", "invalid literal for int()"⟩ := by
  intro parts
  induction parts with
  | nil => exact fun d => Or.inl ⟨d, rfl⟩
  | cons p ps ih =>
      intro d
      unfold navBracketE
      split
      · split
        · next e heq =>
            rcases parseIntE_shape ((p.drop 1).dropLast) with ⟨n, hn⟩ | hn
            · rw [hn] at heq
              exact absurd heq (by simp)
            · rw [hn] at heq
              right
              rw [show e = (⟨"ValueError", "invalid literal for int()"⟩ : PyExn) by
                    cases heq; rfl]
        · split
          · exact ih _
          · exact Or.inl ⟨_, rfl⟩
        · exact Or.inl ⟨_, rfl⟩
      · split
        · split
          · exact ih _
          · exact Or.inl ⟨_, rfl⟩
        · exact Or.inl ⟨_, rfl⟩

theorem resolveVarE_ok (vp : String) (d : J) :
    ∃ v, resolveVarE vp d = Except.ok v := by
  unfold resolveVarE
  split
  · rcases navBracketE_shape vp (parseBracketPath vp) d with ⟨v, hv⟩ | hv
    · rw [hv]
      exact ⟨v, rfl⟩
    · rw [hv]
      exact ⟨missing vp, by simp⟩
  · exact ⟨_, rfl⟩

theorem applyGroupsE_ok (op : Char) (d : J) :
    ∀ (gs : List String) (r : String),
      ∃ s, applyGroupsE op d gs r = Except.ok s := by
  intro gs
  induction gs with
  | nil => exact fun r => ⟨r, rfl⟩
  | cons g gs ih =>
      intro r
      obtain ⟨v, hv⟩ := resolveVarE_ok g d
      obtain ⟨s, hs⟩ := ih (strReplace r (groupPattern op g) (pyStr v))
      exact ⟨s, by simp only [applyGroupsE]; rw [hv, pym_bind_ok, hs]⟩

theorem simple_template_expand_ok (t : String) (d : J) :
    ∃ s, simple_template_expand t d = Except.ok s := by
  unfold simple_template_expand
  split
  · exact ⟨"", rfl⟩
  · obtain ⟨r1, h1⟩ := applyGroupsE_ok '$' d (findGroups '$' t) t
    obtain ⟨r2, h2⟩ := applyGroupsE_ok '%' d (findGroups '%' r1) r1
    exact ⟨r2, by rw [h1, pym_bind_ok, h2]⟩

theorem resolveVarE_unparseable (d : J) :
    resolveVarE "a[x]" d = Except.ok (missing "a[x]") := by
  cases d with
  | dict kvs =>
      have hbp : parseBracketPath "a[x]" = [['a'], ['[', 'x', ']']] := rfl
      cases h : dget kvs "a" with
      | none =>
          simp [resolveVarE, hbp, navBracketE, h, pym_pure_eq]
      | some v2 =>
          simp [resolveVarE, hbp, navBracketE, h, parseIntE, pyIntTrim,
                digitsToNat, pym_bind_err, pym_pure_eq]
  | null => rfl
  | bool b => rfl
  | int n => rfl
  | str s => rfl
  | list xs => rfl

/-- Claim C6: for every template string and every context value the
expander terminates with an ok string result - exceptions arising inside
bracket navigation are caught and never propagate - and a reference with
unparseable bracket syntax (a non-integer index) degenerates to the
sentinel text for every context. -/
theorem claim_C6 :
    (∀ (t : String) (d : J), ∃ s, simple_template_expand t d = Except.ok s) ∧
    (∀ d : J, simple_template_expand "$\x7ba[x]\x7d" d =
        Except.ok "<MISSING:a[x]>") := by
  refine ⟨simple_template_expand_ok, fun d => ?_⟩
  have h := resolveVarE_unparseable d
  unfold simple_template_expand
  rw [if_neg (by decide)]
  rw [show findGroups '$' "$\x7ba[x]\x7d" = ["a[x]"] from rfl]
  simp only [applyGroupsE]
  rw [h, pym_bind_ok]
  rfl

theorem string_mk_data (s : String) : String.mk s.data = s := by
  cases s
  rfl

theorem string_eq_of_data (s t : String) (h : s.data = t.data) : s = t := by
  rw [← string_mk_data s, ← string_mk_data t, h]

theorem listIsPref_refl (l : List Char) : listIsPref l l = true := by
  induction l with
  | nil => rfl
  | cons c cs ih => simp [listIsPref, ih]

theorem replaceAllF_nil (n : Nat) (pat rep : List Char) :
    replaceAllF n [] pat rep = [] := by
  cases n <;> rfl

theorem strReplace_self (t r : String) (h : t.data ≠ []) :
    strReplace t t r = r := by
  unfold strReplace
  rcases ht : t.data with _ | ⟨c, rest⟩
  · exact absurd ht h
  · simp [replaceAllF, listIsPref_refl, List.drop_succ_cons, List.drop_length,
          replaceAllF_nil, string_mk_data]

theorem scanGroups_no_op (op : Char) :
    ∀ (l : List Char), op ∉ l → scanGroups op l = [] := by
  intro l
  induction l with
  | nil => intro _; rfl
  | cons c cs ih =>
      intro h
      have hc : ¬ (c = op) := fun he => h (he ▸ List.mem_cons_self c cs)
      rw [show scanGroups op (c :: cs)
            = if c = op then scanAfterOp op cs else scanGroups op cs from rfl,
          if_neg hc]
      exact ih (fun hm => h (List.mem_cons_of_mem c hm))

theorem scanGroup_emit (op : Char) :
    ∀ (l acc rest : List Char), rbrace ∉ l → acc.reverse ++ l ≠ [] →
      scanGroup op acc (l ++ rbrace :: rest) =
        (acc.reverse ++ l) :: scanGroups op rest := by
  intro l
  induction l with
  | nil =>
      intro acc rest _ hne
      rcases hacc : acc with _ | ⟨a, as⟩
      · rw [hacc] at hne
        simp at hne
      · rw [show ([] : List Char) ++ rbrace :: rest = rbrace :: rest from rfl]
        rw [show scanGroup op (a :: as) (rbrace :: rest)
              = if rbrace = rbrace then
                  (if (a :: as).isEmpty then scanGroups op rest
                   else (a :: as).reverse :: scanGroups op rest)
                else scanGroup op (rbrace :: a :: as) rest from rfl]
        simp
  | cons x xs ih =>
      intro acc rest h hne
      have hx : ¬ (x = rbrace) := fun he => h (he ▸ List.mem_cons_self x xs)
      have h' : rbrace ∉ xs := fun hm => h (List.mem_cons_of_mem x hm)
      rw [show (x :: xs) ++ rbrace :: rest = x :: (xs ++ rbrace :: rest) from rfl]
      rw [show scanGroup op acc (x :: (xs ++ rbrace :: rest))
            = if x = rbrace then
                (if acc.isEmpty then scanGroups op (xs ++ rbrace :: rest)
                 else acc.reverse :: scanGroups op (xs ++ rbrace :: rest))
              else scanGroup op (x :: acc) (xs ++ rbrace :: rest) from rfl,
          if_neg hx]
      rw [ih (x :: acc) rest h' (by simp)]
      simp

theorem scanGroups_template (op : Char) (p : List Char)
    (hne : p ≠ []) (hrb : rbrace ∉ p) :
    scanGroups op (op :: lbrace :: (p ++ [rbrace])) = [p] := by
  rw [show scanGroups op (op :: lbrace :: (p ++ [rbrace]))
        = if op = op then scanAfterOp op (lbrace :: (p ++ [rbrace]))
          else scanGroups op (lbrace :: (p ++ [rbrace])) from rfl,
      if_pos rfl]
  rw [show scanAfterOp op (lbrace :: (p ++ [rbrace]))
        = if lbrace = lbrace then scanGroup op [] (p ++ [rbrace])
          else if lbrace = op then scanAfterOp op (p ++ [rbrace])
          else scanGroups op (p ++ [rbrace]) from rfl,
      if_pos rfl]
  rw [show p ++ [rbrace] = p ++ rbrace :: [] from rfl,
      scanGroup_emit op p [] [] hrb (by simpa using hne)]
  simp [scanGroups]

theorem dollar_template_data (p : String) :
    ("$\x7b" ++ p ++ "\x7d").data = '$' :: lbrace :: (p.data ++ [rbrace]) := by
  rw [String.data_append, String.data_append]
  rw [show ("$\x7b" : String).data = ['$', lbrace] from rfl,
      show ("\x7d" : String).data = [rbrace] from rfl]
  simp

theorem percent_template_data (p : String) :
    ("%\x7b" ++ p ++ "\x7d").data = '%' :: lbrace :: (p.data ++ [rbrace]) := by
  rw [String.data_append, String.data_append]
  rw [show ("%\x7b" : String).data = ['%', lbrace] from rfl,
      show ("\x7d" : String).data = [rbrace] from rfl]
  simp

theorem groupPattern_dollar (p : String) :
    groupPattern '$' p = "$\x7b" ++ p ++ "\x7d" := by
  apply string_eq_of_data
  rw [dollar_template_data]
  rfl

theorem groupPattern_percent (p : String) :
    groupPattern '%' p = "%\x7b" ++ p ++ "\x7d" := by
  apply string_eq_of_data
  rw [percent_template_data]
  rfl

/-- Claim C5 fails as stated: in the context where path p maps to the
string value with text percent-brace-q-brace, the path resolves to that
value v, yet the dollar syntax does not expand to str(v): the percent
pass re-expands the substituted text into the sentinel for q, while the
percent syntax does yield str(v).  So the two syntaxes disagree and the
dollar result differs from str(v). -/
theorem claim_C5_counterexample :
    resolveVarE "p" (J.dict [("p", J.str "%\x7bq\x7d")]) =
        Except.ok (J.str "%\x7bq\x7d") ∧
    simple_template_expand "$\x7bp\x7d" (J.dict [("p", J.str "%\x7bq\x7d")]) =
        Except.ok "<MISSING:q>" ∧
    simple_template_expand "%\x7bp\x7d" (J.dict [("p", J.str "%\x7bq\x7d")]) =
        Except.ok "%\x7bq\x7d" ∧
    ("<MISSING:q>" : String) ≠ "%\x7bq\x7d" :=
  ⟨rfl, rfl, rfl, by decide⟩

/-- Claim C5 (amended): for a reference with a path free of right braces
and of the placeholder opener characters, when the path resolves to a
value v (the sentinel string when any step fails - no partial resolution)
whose string form contains no percent placeholder, both syntaxes expand
to str(v). -/
theorem claim_C5_amended (p : String) (d : J) (v : J)
    (hne : p.data ≠ [])
    (hrb : rbrace ∉ p.data)
    (hdol : '$' ∉ p.data)
    (hres : resolveVarE p d = Except.ok v)
    (hv2 : findGroups '%' (pyStr v) = []) :
    simple_template_expand ("$\x7b" ++ p ++ "\x7d") d = Except.ok (pyStr v) ∧
    simple_template_expand ("%\x7b" ++ p ++ "\x7d") d = Except.ok (pyStr v) := by
  have hd1 : ("$\x7b" ++ p ++ "\x7d").data ≠ [] := by
    rw [dollar_template_data]
    simp
  have hd2 : ("%\x7b" ++ p ++ "\x7d").data ≠ [] := by
    rw [percent_template_data]
    simp
  have htne1 : ("$\x7b" ++ p ++ "\x7d") ≠ "" := by
    intro hc
    exact hd1 (by rw [hc])
  have htne2 : ("%\x7b" ++ p ++ "\x7d") ≠ "" := by
    intro hc
    exact hd2 (by rw [hc])
  have hfg1 : findGroups '$' ("$\x7b" ++ p ++ "\x7d") = [p] := by
    unfold findGroups
    rw [dollar_template_data, scanGroups_template '$' p.data hne hrb]
    simp [string_mk_data]
  have hfg2 : findGroups '%' ("%\x7b" ++ p ++ "\x7d") = [p] := by
    unfold findGroups
    rw [percent_template_data, scanGroups_template '%' p.data hne hrb]
    simp [string_mk_data]
  have hfg3 : findGroups '$' ("%\x7b" ++ p ++ "\x7d") = [] := by
    unfold findGroups
    rw [percent_template_data, scanGroups_no_op]
    · rfl
    · simp only [List.mem_cons, List.mem_append, List.mem_singleton]
      push_neg
      exact ⟨by decide, by decide, fun h => hdol h, by decide⟩
  constructor
  · unfold simple_template_expand
    rw [if_neg htne1, hfg1]
    simp only [applyGroupsE]
    rw [hres, pym_bind_ok, groupPattern_dollar, strReplace_self _ _ hd1,
        pym_pure_eq, pym_bind_ok, hv2]
    rfl
  · unfold simple_template_expand
    rw [if_neg htne2, hfg3]
    simp only [applyGroupsE]
    rw [pym_pure_eq, pym_bind_ok, hfg2]
    simp only [applyGroupsE]
    rw [hres, pym_bind_ok, groupPattern_percent, strReplace_self _ _ hd2]
    rfl

/-- Witness for claim C5 (amended): the path name resolves to World in a
context and both syntaxes expand the single reference to World; and a
missing path name yields the sentinel under both syntaxes. -/
theorem claim_C5_amended_witness :
    (simple_template_expand "$\x7bname\x7d" (J.dict [("name", J.str "World")]) =
        Except.ok "World" ∧
     simple_template_expand "%\x7bname\x7d" (J.dict [("name", J.str "World")]) =
        Except.ok "World") ∧
    (simple_template_expand "$\x7bname\x7d" (J.dict []) =
        Except.ok "<MISSING:name>" ∧
     simple_template_expand "%\x7bname\x7d" (J.dict []) =
        Except.ok "<MISSING:name>") := by
  constructor
  · exact claim_C5_amended "name" (J.dict [("name", J.str "World")])
      (J.str "World") (by decide) (by decide) (by decide) rfl rfl
  · exact claim_C5_amended "name" (J.dict [])
      (J.str "<MISSING:name>") (by decide) (by decide) (by decide) rfl rfl

/-- Claim C9 fails as stated: substituting the dollar reference for a
introduces the percent-shaped text of b into the result, and the percent
pass then expands it, so the final result is X rather than the
introduced placeholder text. -/
theorem claim_C9_counterexample :
    simple_template_expand "$\x7ba\x7d"
        (J.dict [("a", J.str "%\x7bb\x7d"), ("b", J.str "X")]) =
      Except.ok "X" ∧
    ("X" : String) ≠ "%\x7bb\x7d" :=
  ⟨rfl, by decide⟩

/-- Claim C9 (amended): replacement happens in two passes (all dollar
matches found in the template, then all percent matches found in the
intermediate result), so percent-shaped text introduced by a dollar
substitution is expanded; a template with no placeholder match under
either pattern is returned unchanged. -/
theorem claim_C9_amended :
    (∀ (t : String) (d : J), findGroups '$' t = [] → findGroups '%' t = [] →
        simple_template_expand t d = Except.ok t) ∧
    simple_template_expand "$\x7ba\x7d"
        (J.dict [("a", J.str "%\x7bb\x7d"), ("b", J.str "X")]) =
      Except.ok "X" := by
  constructor
  · intro t d h1 h2
    unfold simple_template_expand
    split
    · next h => rw [h]; rfl
    · rw [h1]
      simp only [applyGroupsE]
      rw [pym_pure_eq, pym_bind_ok, h2]
      rfl
  · rfl

/-- Witness for claim C9 (amended): a template with no placeholders is
returned unchanged. -/
theorem claim_C9_amended_witness :
    simple_template_expand "plain text" J.null = Except.ok "plain text" :=
  claim_C9_amended.1 "plain text" J.null rfl rfl

theorem checkKeysE_dict (body : List (String × J)) :
    ∀ (ks : List J), checkKeysE (J.dict body) ks =
      Except.ok (ks.any (truthyKeyJ body)) := by
  intro ks
  induction ks with
  | nil => rfl
  | cons k kss ih =>
      cases k with
      | str s =>
          cases h : dget body s with
          | none =>
              simp [checkKeysE, pyInE, h, ih, truthyKeyJ, List.any_cons,
                    pym_bind_ok, pym_pure_eq, Option.isSome]
          | some v =>
              by_cases ht : pyTruthy v
              · simp [checkKeysE, pyInE, pyGetItemE, h, ht, truthyKeyJ,
                      List.any_cons, pym_bind_ok, pym_pure_eq, Option.isSome]
              · simp [checkKeysE, pyInE, pyGetItemE, h, ht, ih, truthyKeyJ,
                      List.any_cons, pym_bind_ok, pym_pure_eq, Option.isSome]
      | null =>
          simp [checkKeysE, pyInE, ih, truthyKeyJ, List.any_cons,
                pym_bind_ok, pym_pure_eq]
      | bool b =>
          simp [checkKeysE, pyInE, ih, truthyKeyJ, List.any_cons,
                pym_bind_ok, pym_pure_eq]
      | int n =>
          simp [checkKeysE, pyInE, ih, truthyKeyJ, List.any_cons,
                pym_bind_ok, pym_pure_eq]
      | list xs =>
          simp [checkKeysE, pyInE, ih, truthyKeyJ, List.any_cons,
                pym_bind_ok, pym_pure_eq]
      | dict kvs =>
          simp [checkKeysE, pyInE, ih, truthyKeyJ, List.any_cons,
                pym_bind_ok, pym_pure_eq]

/-- Claim C2 fails as stated: an attempt with HTTP status 200 whose
parsed response is the JSON number 5 satisfies none of the three failure
conditions - the status is in range, the response holds no truthy
parse_error or protocol_error key, and no error_keys are configured -
yet the engine classifies it as failed (the membership test on the
integer raises a TypeError that the catch-all turns into a failure). -/
theorem claim_C2_counterexample :
    (classifyAttempt (J.dict [("url", J.str "u")]) "POST"
        (HttpOutcome.resp 200 (some (J.int 5)) "5")).1 = true ∧
    ¬ ((200 : Nat) < 200 ∨ (200 : Nat) > 299) ∧
    truthyKey (J.int 5) "parse_error" = false ∧
    truthyKey (J.int 5) "protocol_error" = false ∧
    errorKeysOf [("url", J.str "u")] = [] :=
  ⟨rfl, by decide, rfl, rfl, rfl⟩

theorem pyInE_dict_str (kvs : List (String × J)) (s : String) :
    pyInE (J.str s) (J.dict kvs) = Except.ok (dget kvs s).isSome := rfl

theorem pyGetItemE_dict_found (kvs : List (String × J)) (s : String) (v : J)
    (h : dget kvs s = some v) :
    pyGetItemE (J.dict kvs) (J.str s) = Except.ok v := by
  simp [pyGetItemE, h, pym_pure_eq]

/-- Claim C2 (amended): for an attempt whose parsed response is a JSON
object, the attempt is classified failed if and only if the status code
is outside 200-299, or the response holds a truthy parse_error or
protocol_error key, or a configured error key (a single string
normalizing to a one-element list) is present and truthy, checked in
that order. -/
theorem claim_C2_amended (wl body : List (String × J)) (status : Nat)
    (text : String) (method : String)
    (hm : method = "GET" ∨ method = "POST" ∨ method = "PUT" ∨
          method = "PATCH" ∨ method = "DELETE") :
    (classifyAttempt (J.dict wl) method
        (HttpOutcome.resp status (some (J.dict body)) text)).1 =
      (decide (status < 200 ∨ status > 299) ||
       truthyKey (J.dict body) "parse_error" ||
       truthyKey (J.dict body) "protocol_error" ||
       (errorKeysOf wl).any (truthyKeyJ body)) := by
  unfold classifyAttempt classifyE
  rw [if_pos hm]
  simp only []
  by_cases hs : status < 200 ∨ status > 299
  · rw [if_pos hs, pym_pure_eq]
    simp [hs]
  · rw [if_neg hs]
    rw [show responseData status (some (J.dict body)) text = J.dict body from rfl]
    rw [checkKeysE_dict body [J.str "parse_error", J.str "protocol_error"],
        pym_bind_ok]
    simp only [List.any_cons, List.any_nil, Bool.or_false]
    by_cases h2 : (truthyKeyJ body (J.str "parse_error") ||
                   truthyKeyJ body (J.str "protocol_error")) = true
    · rw [if_pos h2, pym_pure_eq]
      simp only []
      rw [Bool.or_eq_true] at h2
      rcases h2 with h | h <;> simp [truthyKey, hs, h]
    · rw [if_neg h2]
      have h2' := Bool.or_eq_false_iff.mp (Bool.not_eq_true _ |>.mp h2)
      rw [pyInE_dict_str, pym_bind_ok]
      cases hek : dget wl "error_keys" with
      | none =>
          simp [truthyKey, hs, errorKeysOf, hek, h2'.1, h2'.2, pym_pure_eq]
      | some ek =>
          simp only [Option.isSome_some, eq_self_iff_true, if_true]
          rw [pyGetItemE_dict_found wl "error_keys" ek hek, pym_bind_ok,
              checkKeysE_dict body (normalizeErrorKeys ek), pym_bind_ok,
              pym_pure_eq]
          simp only []
          simp [truthyKey, hs, errorKeysOf, hek, h2'.1, h2'.2]

/-- Witness for claim C2 (amended): a 200 response whose object body
holds the configured error key with a truthy value is classified failed,
and the same response with no error_keys configured is classified
successful. -/
theorem claim_C2_amended_witness :
    (classifyAttempt (J.dict [("error_keys", J.str "bad")]) "POST"
        (HttpOutcome.resp 200 (some (J.dict [("bad", J.str "yes")])) "")).1 =
      true ∧
    (classifyAttempt (J.dict []) "POST"
        (HttpOutcome.resp 200 (some (J.dict [("bad", J.str "yes")])) "")).1 =
      false := by
  constructor
  · rw [claim_C2_amended [("error_keys", J.str "bad")] [("bad", J.str "yes")]
          200 "" "POST" (Or.inr (Or.inl rfl))]
    rfl
  · rw [claim_C2_amended [] [("bad", J.str "yes")]
          200 "" "POST" (Or.inr (Or.inl rfl))]
    rfl

theorem webhookLoop_first_success (net : Net) (ctx : List (String × J))
    (wk : J) (rd : J) (post : List J) :
    ∀ (pre : List J) (i : Nat),
      (∀ j (hj : j < pre.length), ∃ r,
          tryWebhook net ctx (i + j) (pre.get ⟨j, hj⟩) = Except.ok (true, r)) →
      tryWebhook net ctx (i + pre.length) wk = Except.ok (false, rd) →
      webhookLoop net ctx (pre ++ wk :: post) i =
        (processSuccess wk rd ctx >>= fun r => pure (some r)) := by
  intro pre
  induction pre with
  | nil =>
      intro i hfail hsucc
      rw [show i + List.length [] = i from rfl] at hsucc
      simp only [List.nil_append, webhookLoop]
      rw [hsucc, pym_bind_ok]
      simp
  | cons w pre ih =>
      intro i hfail hsucc
      obtain ⟨r0, hr0⟩ := hfail 0 (by simp)
      rw [show i + 0 = i from rfl] at hr0
      rw [show (w :: pre).get ⟨0, by simp⟩ = w from rfl] at hr0
      simp only [List.cons_append, webhookLoop]
      rw [hr0, pym_bind_ok]
      simp only [if_true]
      refine ih (i + 1) (fun j hj => ?_) ?_
      · obtain ⟨r, hr⟩ := hfail (j + 1) (by simpa using Nat.succ_lt_succ hj)
        refine ⟨r, ?_⟩
        rw [show i + 1 + j = i + (j + 1) from by omega]
        simpa using hr
      · rw [show i + 1 + pre.length = i + (w :: pre).length from by simp; omega]
        exact hsucc

/-- Claim C1: when the expression phase yields nothing and the webhook
list splits as pre, wk, post where every attempt on pre is classified
failed and the attempt on wk succeeds with parsed response rd, the
engine's whole result is exactly the processing of wk's response against
the initial context: later webhooks never influence the result and no
data from the failed attempts reaches the final context. -/
theorem claim_C1 (net : Net) (cfg dm args : List (String × J))
    (pre post : List J) (wk rd : J)
    (hact : actualOf cfg = J.dict dm)
    (hex : exprPhase (J.dict dm) args (initContext args) = Except.ok none)
    (hw : dget dm "webhooks" = some (J.list (pre ++ wk :: post)))
    (hfail : ∀ j (hj : j < pre.length), ∃ r,
        tryWebhook net (initContext args) j (pre.get ⟨j, hj⟩) =
          Except.ok (true, r))
    (hsucc : tryWebhook net (initContext args) pre.length wk =
        Except.ok (false, rd)) :
    execute_datamap_function net cfg args =
      processSuccess wk rd (initContext args) := by
  unfold execute_datamap_function
  rw [hact]
  simp only [hex, pym_bind_ok]
  unfold webhookPhase
  rw [pyInE_dict_str, hw]
  simp only [Option.isSome_some, eq_self_iff_true, if_true, pym_pure_eq,
             pym_bind_ok]
  rw [pyGetItemE_dict_found dm "webhooks" _ hw, pym_bind_ok]
  rw [show pyIterE (J.list (pre ++ wk :: post)) =
        Except.ok (pre ++ wk :: post) from rfl, pym_bind_ok]
  rw [webhookLoop_first_success net (initContext args) wk rd post pre 0
        (fun j hj => by simpa using hfail j hj) (by simpa using hsucc)]
  cases hps : processSuccess wk rd (initContext args) with
  | ok r => rfl
  | error e => rfl

/-- Witness for claim C1: with two webhooks where the first attempt gets
HTTP 500 and the second HTTP 200 with ok true, the result is the second
webhook's rendered output. -/
theorem claim_C1_witness :
    execute_datamap_function exNet1 exCfg1 [("q", J.str "x")] =
      Except.ok (J.str "second True") := by
  rw [claim_C1 exNet1 exCfg1 exDm1 [("q", J.str "x")] [exW1] [] exW2
        (J.dict [("ok", J.bool true)]) rfl rfl rfl
        (fun j hj => by
          have hj1 : j = 0 := by
            simp only [List.length_cons, List.length_nil] at hj
            omega
          subst hj1
          exact ⟨J.dict [("ok", J.str "bad")], rfl⟩)
        rfl]
  rfl

theorem mapM_render_ok (ctx : List (String × J)) :
    ∀ kvs : List (String × J),
      ∃ pairs, (kvs.mapM (fun kv => do
          let s ← simple_template_expand (pyStr kv.2) (J.dict ctx)
          pure (kv.1, J.str s)) : PyM (List (String × J))) =
        Except.ok pairs := by
  intro kvs
  induction kvs with
  | nil => exact ⟨[], rfl⟩
  | cons kv rest ih =>
      obtain ⟨s, hs⟩ := simple_template_expand_ok (pyStr kv.2) (J.dict ctx)
      obtain ⟨pairs, hp⟩ := ih
      refine ⟨(kv.1, J.str s) :: pairs, ?_⟩
      rw [List.mapM_cons]
      rw [hs, pym_bind_ok, pym_pure_eq, pym_bind_ok, hp, pym_bind_ok]
      rfl

theorem renderOutputTemplate_ok (o : J) (ctx : List (String × J)) :
    ∃ r, renderOutputTemplate o ctx = Except.ok r := by
  cases o with
  | dict kvs =>
      obtain ⟨pairs, hp⟩ := mapM_render_ok ctx kvs
      exact ⟨J.dict pairs, by unfold renderOutputTemplate; simp only []; rw [hp, pym_bind_ok]; rfl⟩
  | null =>
      obtain ⟨s, hs⟩ := simple_template_expand_ok (pyStr J.null) (J.dict ctx)
      exact ⟨J.str s, by unfold renderOutputTemplate; simp only []; rw [hs, pym_bind_ok]; rfl⟩
  | bool b =>
      obtain ⟨s, hs⟩ := simple_template_expand_ok (pyStr (J.bool b)) (J.dict ctx)
      exact ⟨J.str s, by unfold renderOutputTemplate; simp only []; rw [hs, pym_bind_ok]; rfl⟩
  | int n =>
      obtain ⟨s, hs⟩ := simple_template_expand_ok (pyStr (J.int n)) (J.dict ctx)
      exact ⟨J.str s, by unfold renderOutputTemplate; simp only []; rw [hs, pym_bind_ok]; rfl⟩
  | str t =>
      obtain ⟨s, hs⟩ := simple_template_expand_ok (pyStr (J.str t)) (J.dict ctx)
      exact ⟨J.str s, by unfold renderOutputTemplate; simp only []; rw [hs, pym_bind_ok]; rfl⟩
  | list xs =>
      obtain ⟨s, hs⟩ := simple_template_expand_ok (pyStr (J.list xs)) (J.dict ctx)
      exact ⟨J.str s, by unfold renderOutputTemplate; simp only []; rw [hs, pym_bind_ok]; rfl⟩

/-- Claim C3: when the expression phase yields nothing and the webhook
phase yields nothing (every configured webhook failed, or none are
configured), the engine returns an ordinary value: the fixed error
object when no DataMap-level output is configured, else the output
template rendered against the context holding only the original call
arguments. -/
theorem claim_C3 (net : Net) (cfg dm args : List (String × J))
    (hact : actualOf cfg = J.dict dm)
    (hex : exprPhase (J.dict dm) args (initContext args) = Except.ok none)
    (hwh : webhookPhase net (J.dict dm) (initContext args) = Except.ok none) :
    (dget dm "output" = none →
       execute_datamap_function net cfg args = Except.ok allFailedError) ∧
    (∀ o, dget dm "output" = some o →
       ∃ r, execute_datamap_function net cfg args = Except.ok r ∧
            renderOutputTemplate o (initContext args) = Except.ok r) := by
  have hglue : execute_datamap_function net cfg args =
      fallbackPhase (J.dict dm) (initContext args) := by
    unfold execute_datamap_function
    rw [hact]
    simp only [hex, pym_bind_ok, hwh]
  constructor
  · intro hno
    rw [hglue]
    unfold fallbackPhase
    rw [pyInE_dict_str, hno]
    rfl
  · intro o ho
    obtain ⟨r, hr⟩ := renderOutputTemplate_ok o (initContext args)
    refine ⟨r, ?_, hr⟩
    rw [hglue]
    unfold fallbackPhase
    rw [pyInE_dict_str, ho]
    simp only [Option.isSome_some, eq_self_iff_true, if_true, pym_pure_eq,
               pym_bind_ok]
    rw [pyGetItemE_dict_found dm "output" o ho, pym_bind_ok, hr]

/-- Witness for claim C3: with no configuration at all the engine
returns the fixed error object, and with one failing webhook plus a
dict fallback output it returns the rendered fallback. -/
theorem claim_C3_witness :
    execute_datamap_function exNet500 [] [] = Except.ok allFailedError ∧
    execute_datamap_function exNet500 exCfg2 [("q", J.str "x")] =
      Except.ok (J.dict [("response", J.str "fb x"), ("s", J.str "t")]) := by
  constructor
  · exact (claim_C3 exNet500 [] [] [] rfl rfl rfl).1 rfl
  · obtain ⟨r, h1, h2⟩ :=
      (claim_C3 exNet500 exCfg2 exDm2 [("q", J.str "x")] rfl rfl rfl).2
        (J.dict [("response", J.str "fb $\x7bargs.q\x7d"), ("s", J.str "t")]) rfl
    rw [show renderOutputTemplate
          (J.dict [("response", J.str "fb $\x7bargs.q\x7d"), ("s", J.str "t")])
          (initContext [("q", J.str "x")]) =
        Except.ok (J.dict [("response", J.str "fb x"), ("s", J.str "t")])
        from rfl] at h2
    cases h2
    exact h1

theorem tryExpression_eval (el args ctx : List (String × J)) (ps : String)
    (o : J)
    (hp : dget el "pattern" = some (J.str ps))
    (ho : dget el "output" = some o) :
    ∃ s, simple_template_expand (pyStr o) (J.dict ctx) = Except.ok s ∧
      tryExpression (J.dict el) args ctx =
        Except.ok (if strHasSub (pyStr (J.dict args)) ps then some (J.str s)
                   else none) := by
  obtain ⟨s, hs⟩ := simple_template_expand_ok (pyStr o) (J.dict ctx)
  refine ⟨s, hs, ?_⟩
  unfold tryExpression
  rw [pyInE_dict_str, hp]
  simp only [Option.isSome_some, eq_self_iff_true, if_true, pym_pure_eq,
             pym_bind_ok]
  rw [pyInE_dict_str, ho]
  simp only [Option.isSome_some, eq_self_iff_true, if_true, pym_pure_eq,
             pym_bind_ok]
  rw [pyGetItemE_dict_found el "pattern" _ hp, pym_bind_ok]
  rw [show pyInE (J.str ps) (J.str (pyStr (J.dict args)))
        = Except.ok (strHasSub (pyStr (J.dict args)) ps) from rfl, pym_bind_ok]
  by_cases hm : strHasSub (pyStr (J.dict args)) ps = true
  · rw [if_pos hm, if_pos hm]
    rw [pyGetItemE_dict_found el "output" _ ho, pym_bind_ok, hs, pym_bind_ok]
  · rw [if_neg hm, if_neg hm]

theorem exprLoop_first_success (args ctx : List (String × J)) (r : J)
    (ek : J) (post : List J) :
    ∀ (pre : List J),
      (∀ e ∈ pre, tryExpression e args ctx = Except.ok none) →
      tryExpression ek args ctx = Except.ok (some r) →
      exprLoop args ctx (pre ++ ek :: post) = Except.ok (some r) := by
  intro pre
  induction pre with
  | nil =>
      intro _ hsucc
      simp only [List.nil_append, exprLoop]
      rw [hsucc, pym_bind_ok]
      rfl
  | cons e pre ih =>
      intro hfail hsucc
      simp only [List.cons_append, exprLoop]
      rw [hfail e (List.mem_cons_self e pre), pym_bind_ok]
      exact ih (fun e' he' => hfail e' (List.mem_cons_of_mem e he')) hsucc

/-- Claim C4: an expression rule holding a string pattern and an output
matches exactly when the pattern occurs as a substring of the
stringified arguments, in which case its stringified output is expanded
as one template; and when the rule list splits as pre, ek, post with no
rule of pre producing a result and ek producing one, the engine returns
ek's result immediately, for every network oracle and any later rules -
webhooks are never attempted. -/
theorem claim_C4 :
    (∀ (el args ctx : List (String × J)) (ps : String) (o : J),
       dget el "pattern" = some (J.str ps) →
       dget el "output" = some o →
       ∃ s, simple_template_expand (pyStr o) (J.dict ctx) = Except.ok s ∧
         tryExpression (J.dict el) args ctx =
           Except.ok (if strHasSub (pyStr (J.dict args)) ps
                      then some (J.str s) else none)) ∧
    (∀ (net : Net) (cfg dm args : List (String × J)) (pre post : List J)
       (ek r : J),
       actualOf cfg = J.dict dm →
       dget dm "expressions" = some (J.list (pre ++ ek :: post)) →
       (∀ e ∈ pre, tryExpression e args (initContext args) = Except.ok none) →
       tryExpression ek args (initContext args) = Except.ok (some r) →
       execute_datamap_function net cfg args = Except.ok r) := by
  constructor
  · exact fun el args ctx ps o hp ho => tryExpression_eval el args ctx ps o hp ho
  · intro net cfg dm args pre post ek r hact hes hfail hsucc
    have hphase : exprPhase (J.dict dm) args (initContext args) =
        Except.ok (some r) := by
      unfold exprPhase
      rw [pyInE_dict_str, hes]
      simp only [Option.isSome_some, eq_self_iff_true, if_true, pym_pure_eq,
                 pym_bind_ok]
      rw [pyGetItemE_dict_found dm "expressions" _ hes, pym_bind_ok]
      rw [show pyIterE (J.list (pre ++ ek :: post))
            = Except.ok (pre ++ ek :: post) from rfl, pym_bind_ok]
      exact exprLoop_first_success args (initContext args) r ek post pre
        hfail hsucc
    unfold execute_datamap_function
    rw [hact]
    simp only [hphase, pym_bind_ok]
    rfl

/-- Witness for claim C4: with three rules where the second and third
both match Paris, the engine returns the second rule's rendered output
and never touches the webhook (the oracle raises on any attempt). -/
theorem claim_C4_witness :
    execute_datamap_function (fun _ => HttpOutcome.exn "no net") exCfg4
      [("city", J.str "Paris")] = Except.ok (J.str "matched Paris") := by
  exact claim_C4.2 (fun _ => HttpOutcome.exn "no net") exCfg4 exDm4
    [("city", J.str "Paris")] [exE1] [exE3] exE2 (J.str "matched Paris")
    rfl rfl
    (fun e he => by rw [List.mem_singleton] at he; subst he; rfl)
    rfl

/-- Claim C10: whenever an expression rule with a string pattern and an
output fires, the result is the string obtained by expanding str of the
output as one template - in particular always a J.str value, never a
dict, even when the output template is a dict. -/
theorem claim_C10 (el args ctx : List (String × J)) (ps : String) (o : J)
    (hp : dget el "pattern" = some (J.str ps))
    (ho : dget el "output" = some o)
    (hm : strHasSub (pyStr (J.dict args)) ps = true) :
    ∃ s, simple_template_expand (pyStr o) (J.dict ctx) = Except.ok s ∧
      tryExpression (J.dict el) args ctx = Except.ok (some (J.str s)) := by
  obtain ⟨s, hs, heq⟩ := tryExpression_eval el args ctx ps o hp ho
  refine ⟨s, hs, ?_⟩
  rw [heq, if_pos hm]

/-- Witness for claim C10: a rule whose output is a dict template fires
and yields the expansion of the dict's Python string form, a plain
string result. -/
theorem claim_C10_witness :
    tryExpression
      (J.dict [("pattern", J.str "V"),
               ("output", J.dict [("response", J.str "hi $\x7bargs.x\x7d")])])
      [("x", J.str "V")] (initContext [("x", J.str "V")]) =
      Except.ok (some (J.str "\x7b'response': 'hi V'\x7d")) := by
  obtain ⟨s, hs, heq⟩ := claim_C10
    [("pattern", J.str "V"),
     ("output", J.dict [("response", J.str "hi $\x7bargs.x\x7d")])]
    [("x", J.str "V")] (initContext [("x", J.str "V")]) "V"
    (J.dict [("response", J.str "hi $\x7bargs.x\x7d")]) rfl rfl rfl
  rw [show simple_template_expand
        (pyStr (J.dict [("response", J.str "hi $\x7bargs.x\x7d")]))
        (J.dict (initContext [("x", J.str "V")])) =
      Except.ok "\x7b'response': 'hi V'\x7d" from rfl] at hs
  cases hs
  exact heq

/-- Claim C7 fails as stated: when input_key maps to an empty list, the
claim requires the empty concatenation to be stored under output_key,
but the source's truthiness test on the list skips the store entirely,
so the webhook context is unchanged and a later template reference to
the output key renders the sentinel instead of the empty string. -/
theorem claim_C7_counterexample :
    processForeach exFc6 (J.dict [("items", J.list [])]) [] =
      Except.ok [] ∧
    (∀ v, Except.ok [] ≠
      (Except.ok [("joined", v)] : PyM (List (String × J)))) ∧
    execute_datamap_function exNetEmpty exCfg6 [] =
      Except.ok (J.str "got <MISSING:joined>") ∧
    J.str "got <MISSING:joined>" ≠ J.str "got " := by
  refine ⟨rfl, ?_, rfl, ?_⟩
  · intro v h
    injection h with h'
    cases h'
  · intro h
    exact absurd (J.str.inj h) (by decide)

theorem foreach_mapM_ok (aps : String) :
    ∀ (l : List J), ∃ parts,
      (l.mapM (fun item => do
          let ap2 ← asStrE (J.str aps)
          simple_template_expand ap2 (foreachThis item)) :
        PyM (List String)) = Except.ok parts ∧
      (l.mapM (fun item => simple_template_expand aps (foreachThis item)) :
        PyM (List String)) = Except.ok parts := by
  intro l
  induction l with
  | nil => exact ⟨[], rfl, rfl⟩
  | cons x xs ih =>
      obtain ⟨parts, h1, h2⟩ := ih
      obtain ⟨s, hs⟩ := simple_template_expand_ok aps (foreachThis x)
      refine ⟨s :: parts, ?_, ?_⟩
      · rw [List.mapM_cons]
        rw [show (do let ap2 ← asStrE (J.str aps)
                     simple_template_expand ap2 (foreachThis x) : PyM String)
              = simple_template_expand aps (foreachThis x) from rfl]
        rw [hs, pym_bind_ok, h1, pym_bind_ok]
        rfl
      · rw [List.mapM_cons, hs, pym_bind_ok, h2, pym_bind_ok]
        rfl

theorem processForeach_store (fcl rdl wctx : List (String × J))
    (iks okk aps : String) (m : Int) (xs : List J)
    (hik : dget fcl "input_key" = some (J.str iks))
    (hok : dget fcl "output_key" = some (J.str okk))
    (hmx : dget fcl "max" = some (J.int m))
    (hap : dget fcl "append" = some (J.str aps))
    (hin : dget rdl iks = some (J.list xs))
    (hxs : xs ≠ []) :
    ∃ parts,
      ((pySliceTo xs m).mapM
          (fun item => simple_template_expand aps (foreachThis item)) :
        PyM (List String)) = Except.ok parts ∧
      processForeach (J.dict fcl) (J.dict rdl) wctx =
        Except.ok (dset wctx okk (J.str (String.join parts))) := by
  obtain ⟨parts, h1, h2⟩ := foreach_mapM_ok aps (pySliceTo xs m)
  refine ⟨parts, h2, ?_⟩
  have hie : xs.isEmpty = false := by
    cases xs with
    | nil => exact absurd rfl hxs
    | cons a l => rfl
  unfold processForeach
  rw [show pyGetD (J.dict fcl) "input_key" (J.str "data")
        = Except.ok ((dget fcl "input_key").getD (J.str "data")) from rfl,
      hik, pym_bind_ok]
  simp only [Option.getD_some]
  rw [show pyGetD (J.dict fcl) "output_key" (J.str "result")
        = Except.ok ((dget fcl "output_key").getD (J.str "result")) from rfl,
      hok, pym_bind_ok]
  simp only [Option.getD_some]
  rw [show pyGetD (J.dict fcl) "max" (J.int 100)
        = Except.ok ((dget fcl "max").getD (J.int 100)) from rfl,
      hmx, pym_bind_ok]
  simp only [Option.getD_some]
  rw [show pyGetD (J.dict fcl) "append" (J.str "$\x7bthis.value\x7d")
        = Except.ok ((dget fcl "append").getD
            (J.str "$\x7bthis.value\x7d")) from rfl,
      hap, pym_bind_ok]
  simp only [Option.getD_some]
  rw [pyInE_dict_str, hin]
  simp only [Option.isSome_some, eq_self_iff_true, if_true, pym_pure_eq,
             pym_bind_ok]
  rw [pyGetItemE_dict_found rdl iks _ hin, pym_bind_ok]
  simp only [pym_pure_eq, pym_bind_ok]
  rw [hie]
  simp only [Bool.false_eq_true, if_false]
  rw [show asIntE (J.int m) = Except.ok m from rfl, pym_bind_ok, h1,
      pym_bind_ok]
  rw [show asKeyE (J.str okk) = Except.ok okk from rfl, pym_bind_ok]

theorem processForeach_noop_absent (fcl rdl wctx : List (String × J))
    (iks : String)
    (hik : dget fcl "input_key" = some (J.str iks))
    (hin : dget rdl iks = none) :
    processForeach (J.dict fcl) (J.dict rdl) wctx = Except.ok wctx := by
  unfold processForeach
  rw [show pyGetD (J.dict fcl) "input_key" (J.str "data")
        = Except.ok ((dget fcl "input_key").getD (J.str "data")) from rfl,
      hik, pym_bind_ok]
  simp only [Option.getD_some]
  rw [show pyGetD (J.dict fcl) "output_key" (J.str "result")
        = Except.ok ((dget fcl "output_key").getD (J.str "result")) from rfl,
      pym_bind_ok]
  rw [show pyGetD (J.dict fcl) "max" (J.int 100)
        = Except.ok ((dget fcl "max").getD (J.int 100)) from rfl, pym_bind_ok]
  rw [show pyGetD (J.dict fcl) "append" (J.str "$\x7bthis.value\x7d")
        = Except.ok ((dget fcl "append").getD
            (J.str "$\x7bthis.value\x7d")) from rfl, pym_bind_ok]
  rw [pyInE_dict_str, hin]
  rfl

theorem processForeach_noop_nonlist (fcl rdl wctx : List (String × J))
    (iks : String) (v : J)
    (hik : dget fcl "input_key" = some (J.str iks))
    (hin : dget rdl iks = some v)
    (hv : ∀ ys, v ≠ J.list ys) :
    processForeach (J.dict fcl) (J.dict rdl) wctx = Except.ok wctx := by
  unfold processForeach
  rw [show pyGetD (J.dict fcl) "input_key" (J.str "data")
        = Except.ok ((dget fcl "input_key").getD (J.str "data")) from rfl,
      hik, pym_bind_ok]
  simp only [Option.getD_some]
  rw [show pyGetD (J.dict fcl) "output_key" (J.str "result")
        = Except.ok ((dget fcl "output_key").getD (J.str "result")) from rfl,
      pym_bind_ok]
  rw [show pyGetD (J.dict fcl) "max" (J.int 100)
        = Except.ok ((dget fcl "max").getD (J.int 100)) from rfl, pym_bind_ok]
  rw [show pyGetD (J.dict fcl) "append" (J.str "$\x7bthis.value\x7d")
        = Except.ok ((dget fcl "append").getD
            (J.str "$\x7bthis.value\x7d")) from rfl, pym_bind_ok]
  rw [pyInE_dict_str, hin]
  simp only [Option.isSome_some, eq_self_iff_true, if_true, pym_pure_eq,
             pym_bind_ok]
  rw [pyGetItemE_dict_found rdl iks v hin, pym_bind_ok]
  cases v with
  | list ys => exact absurd rfl (hv ys)
  | null => rfl
  | bool b => rfl
  | int n => rfl
  | str s => rfl
  | dict kvs => rfl

theorem processForeach_noop_empty (fcl rdl wctx : List (String × J))
    (iks : String)
    (hik : dget fcl "input_key" = some (J.str iks))
    (hin : dget rdl iks = some (J.list [])) :
    processForeach (J.dict fcl) (J.dict rdl) wctx = Except.ok wctx := by
  unfold processForeach
  rw [show pyGetD (J.dict fcl) "input_key" (J.str "data")
        = Except.ok ((dget fcl "input_key").getD (J.str "data")) from rfl,
      hik, pym_bind_ok]
  simp only [Option.getD_some]
  rw [show pyGetD (J.dict fcl) "output_key" (J.str "result")
        = Except.ok ((dget fcl "output_key").getD (J.str "result")) from rfl,
      pym_bind_ok]
  rw [show pyGetD (J.dict fcl) "max" (J.int 100)
        = Except.ok ((dget fcl "max").getD (J.int 100)) from rfl, pym_bind_ok]
  rw [show pyGetD (J.dict fcl) "append" (J.str "$\x7bthis.value\x7d")
        = Except.ok ((dget fcl "append").getD
            (J.str "$\x7bthis.value\x7d")) from rfl, pym_bind_ok]
  rw [pyInE_dict_str, hin]
  simp only [Option.isSome_some, eq_self_iff_true, if_true, pym_pure_eq,
             pym_bind_ok]
  rw [pyGetItemE_dict_found rdl iks _ hin, pym_bind_ok]
  rfl

/-- Claim C7 (amended): for a foreach over a non-empty list under
input_key, the engine expands the append template per element against
the transient this-context, taking exactly the first max elements, and
stores the separator-free concatenation under output_key; when the
input_key is absent, maps to a non-list, or maps to an empty list, the
context is unchanged (in particular the empty concatenation is not
stored). -/
theorem claim_C7_amended :
    (∀ (fcl rdl wctx : List (String × J)) (iks okk aps : String) (m : Int)
       (xs : List J),
       dget fcl "input_key" = some (J.str iks) →
       dget fcl "output_key" = some (J.str okk) →
       dget fcl "max" = some (J.int m) →
       dget fcl "append" = some (J.str aps) →
       dget rdl iks = some (J.list xs) → xs ≠ [] →
       ∃ parts,
         ((pySliceTo xs m).mapM
             (fun item => simple_template_expand aps (foreachThis item)) :
           PyM (List String)) = Except.ok parts ∧
         processForeach (J.dict fcl) (J.dict rdl) wctx =
           Except.ok (dset wctx okk (J.str (String.join parts)))) ∧
    (∀ (fcl rdl wctx : List (String × J)) (iks : String),
       dget fcl "input_key" = some (J.str iks) → dget rdl iks = none →
       processForeach (J.dict fcl) (J.dict rdl) wctx = Except.ok wctx) ∧
    (∀ (fcl rdl wctx : List (String × J)) (iks : String) (v : J),
       dget fcl "input_key" = some (J.str iks) → dget rdl iks = some v →
       (∀ ys, v ≠ J.list ys) →
       processForeach (J.dict fcl) (J.dict rdl) wctx = Except.ok wctx) ∧
    (∀ (fcl rdl wctx : List (String × J)) (iks : String),
       dget fcl "input_key" = some (J.str iks) →
       dget rdl iks = some (J.list []) →
       processForeach (J.dict fcl) (J.dict rdl) wctx = Except.ok wctx) :=
  ⟨fun fcl rdl wctx iks okk aps m xs h1 h2 h3 h4 h5 h6 =>
     processForeach_store fcl rdl wctx iks okk aps m xs h1 h2 h3 h4 h5 h6,
   fun fcl rdl wctx iks h1 h2 =>
     processForeach_noop_absent fcl rdl wctx iks h1 h2,
   fun fcl rdl wctx iks v h1 h2 h3 =>
     processForeach_noop_nonlist fcl rdl wctx iks v h1 h2 h3,
   fun fcl rdl wctx iks h1 h2 =>
     processForeach_noop_empty fcl rdl wctx iks h1 h2⟩

/-- Witness for claim C7 (amended): a foreach with max 2 over five
items stores the concatenation of exactly the first two expansions. -/
theorem claim_C7_amended_witness :
    processForeach
      (J.dict [("input_key", J.str "items"), ("output_key", J.str "joined"),
               ("max", J.int 2), ("append", J.str "<$\x7bthis.t\x7d>")])
      (J.dict [("items", J.list
        [J.dict [("t", J.str "a")], J.dict [("t", J.str "b")],
         J.dict [("t", J.str "c")], J.dict [("t", J.str "d")],
         J.dict [("t", J.str "e")]])])
      [] = Except.ok [("joined", J.str "<a><b>")] := by
  obtain ⟨parts, h1, h2⟩ := claim_C7_amended.1
    [("input_key", J.str "items"), ("output_key", J.str "joined"),
     ("max", J.int 2), ("append", J.str "<$\x7bthis.t\x7d>")]
    [("items", J.list
      [J.dict [("t", J.str "a")], J.dict [("t", J.str "b")],
       J.dict [("t", J.str "c")], J.dict [("t", J.str "d")],
       J.dict [("t", J.str "e")]])]
    [] "items" "joined" "<$\x7bthis.t\x7d>" 2
    [J.dict [("t", J.str "a")], J.dict [("t", J.str "b")],
     J.dict [("t", J.str "c")], J.dict [("t", J.str "d")],
     J.dict [("t", J.str "e")]]
    rfl rfl rfl rfl rfl (by simp)
  rw [show ((pySliceTo
        [J.dict [("t", J.str "a")], J.dict [("t", J.str "b")],
         J.dict [("t", J.str "c")], J.dict [("t", J.str "d")],
         J.dict [("t", J.str "e")]] 2).mapM
          (fun item => simple_template_expand "<$\x7bthis.t\x7d>"
            (foreachThis item)) : PyM (List String)) =
      Except.ok ["<a>", "<b>"] from rfl] at h1
  injection h1 with h1'
  rw [← h1'] at h2
  exact h2

/-- Claim C8 fails as stated: a map-valued data payload is serialized
without any template expansion - the placeholder survives verbatim in
the request body even though the context would expand it to V. -/
theorem claim_C8_counterexample :
    buildRequestData
        (J.dict [("data", J.dict [("k", J.str "$\x7bargs.x\x7d")])])
        (initContext [("x", J.str "V")]) "POST" =
      Except.ok (some "\x7b\"k\": \"$\x7bargs.x\x7d\"\x7d") ∧
    simple_template_expand "$\x7bargs.x\x7d"
        (J.dict (initContext [("x", J.str "V")])) = Except.ok "V" ∧
    ("\x7b\"k\": \"$\x7bargs.x\x7d\"\x7d" : String) ≠ "\x7b\"k\": \"V\"\x7d" :=
  ⟨rfl, rfl, by decide⟩

theorem buildRequestData_params (wl ctx ps : List (String × J))
    (method : String)
    (hm : method = "POST" ∨ method = "PUT" ∨ method = "PATCH")
    (hp : dget wl "params" = some (J.dict ps)) :
    ∃ ex, (ps.mapM (fun kv => do
        let s ← simple_template_expand (pyStr kv.2) (J.dict ctx)
        pure (kv.1, J.str s)) : PyM (List (String × J))) = Except.ok ex ∧
      buildRequestData (J.dict wl) ctx method =
        Except.ok (some (jsonDumps (J.dict ex))) := by
  obtain ⟨ex, hex⟩ := mapM_render_ok ctx ps
  refine ⟨ex, hex, ?_⟩
  unfold buildRequestData
  rw [if_pos hm]
  rw [pyInE_dict_str, hp]
  simp only [Option.isSome_some, eq_self_iff_true, if_true, pym_pure_eq,
             pym_bind_ok]
  rw [pyGetItemE_dict_found wl "params" _ hp, pym_bind_ok]
  rw [show pyItemsE (J.dict ps) = Except.ok ps from rfl, pym_bind_ok]
  have hex' := hex
  simp only [pym_pure_eq] at hex'
  rw [hex', pym_bind_ok]

theorem buildRequestData_body_str (wl ctx : List (String × J)) (bs : String)
    (method : String)
    (hm : method = "POST" ∨ method = "PUT" ∨ method = "PATCH")
    (hnp : dget wl "params" = none)
    (hb : dget wl "body" = some (J.str bs)) :
    ∃ s, simple_template_expand bs (J.dict ctx) = Except.ok s ∧
      buildRequestData (J.dict wl) ctx method = Except.ok (some s) := by
  obtain ⟨s, hs⟩ := simple_template_expand_ok bs (J.dict ctx)
  refine ⟨s, hs, ?_⟩
  unfold buildRequestData
  rw [if_pos hm]
  rw [pyInE_dict_str, hnp]
  simp only [Option.isSome_none, Bool.false_eq_true, if_false, pym_pure_eq,
             pym_bind_ok]
  rw [pyInE_dict_str, hb]
  simp only [Option.isSome_some, eq_self_iff_true, if_true, pym_pure_eq,
             pym_bind_ok]
  rw [pyGetItemE_dict_found wl "body" _ hb, pym_bind_ok]
  simp only []
  rw [hs, pym_bind_ok]

theorem buildRequestData_body_dict (wl ctx bs : List (String × J))
    (method : String)
    (hm : method = "POST" ∨ method = "PUT" ∨ method = "PATCH")
    (hnp : dget wl "params" = none)
    (hb : dget wl "body" = some (J.dict bs)) :
    ∃ ex, (bs.mapM (fun kv => do
        let s ← simple_template_expand (pyStr kv.2) (J.dict ctx)
        pure (kv.1, J.str s)) : PyM (List (String × J))) = Except.ok ex ∧
      buildRequestData (J.dict wl) ctx method =
        Except.ok (some (jsonDumps (J.dict ex))) := by
  obtain ⟨ex, hex⟩ := mapM_render_ok ctx bs
  refine ⟨ex, hex, ?_⟩
  unfold buildRequestData
  rw [if_pos hm]
  rw [pyInE_dict_str, hnp]
  simp only [Option.isSome_none, Bool.false_eq_true, if_false, pym_pure_eq,
             pym_bind_ok]
  rw [pyInE_dict_str, hb]
  simp only [Option.isSome_some, eq_self_iff_true, if_true, pym_pure_eq,
             pym_bind_ok]
  rw [pyGetItemE_dict_found wl "body" _ hb, pym_bind_ok]
  simp only []
  rw [show pyItemsE (J.dict bs) = Except.ok bs from rfl, pym_bind_ok]
  have hex' := hex
  simp only [pym_pure_eq] at hex'
  rw [hex', pym_bind_ok]

theorem buildRequestData_data_str (wl ctx : List (String × J)) (ds : String)
    (method : String)
    (hm : method = "POST" ∨ method = "PUT" ∨ method = "PATCH")
    (hnp : dget wl "params" = none)
    (hnb : dget wl "body" = none)
    (hd : dget wl "data" = some (J.str ds)) :
    ∃ s, simple_template_expand ds (J.dict ctx) = Except.ok s ∧
      buildRequestData (J.dict wl) ctx method = Except.ok (some s) := by
  obtain ⟨s, hs⟩ := simple_template_expand_ok ds (J.dict ctx)
  refine ⟨s, hs, ?_⟩
  unfold buildRequestData
  rw [if_pos hm]
  rw [pyInE_dict_str, hnp]
  simp only [Option.isSome_none, Bool.false_eq_true, if_false, pym_pure_eq,
             pym_bind_ok]
  rw [pyInE_dict_str, hnb]
  simp only [Option.isSome_none, Bool.false_eq_true, if_false, pym_pure_eq,
             pym_bind_ok]
  rw [pyInE_dict_str, hd]
  simp only [Option.isSome_some, eq_self_iff_true, if_true, pym_pure_eq,
             pym_bind_ok]
  rw [pyGetItemE_dict_found wl "data" _ hd, pym_bind_ok]
  simp only []
  rw [hs, pym_bind_ok]

theorem buildRequestData_data_raw (wl ctx : List (String × J)) (d : J)
    (method : String)
    (hm : method = "POST" ∨ method = "PUT" ∨ method = "PATCH")
    (hnp : dget wl "params" = none)
    (hnb : dget wl "body" = none)
    (hd : dget wl "data" = some d)
    (hv : ∀ s, d ≠ J.str s) :
    buildRequestData (J.dict wl) ctx method =
      Except.ok (some (jsonDumps d)) := by
  unfold buildRequestData
  rw [if_pos hm]
  rw [pyInE_dict_str, hnp]
  simp only [Option.isSome_none, Bool.false_eq_true, if_false, pym_pure_eq,
             pym_bind_ok]
  rw [pyInE_dict_str, hnb]
  simp only [Option.isSome_none, Bool.false_eq_true, if_false, pym_pure_eq,
             pym_bind_ok]
  rw [pyInE_dict_str, hd]
  simp only [Option.isSome_some, eq_self_iff_true, if_true, pym_pure_eq,
             pym_bind_ok]
  rw [pyGetItemE_dict_found wl "data" _ hd, pym_bind_ok]
  cases d with
  | str s => exact absurd rfl (hv s)
  | null => rfl
  | bool b => rfl
  | int n => rfl
  | list xs => rfl
  | dict kvs => rfl

theorem buildRequestData_get_delete (wl ctx : List (String × J))
    (method : String)
    (hm : method = "GET" ∨ method = "DELETE") :
    buildRequestData (J.dict wl) ctx method = Except.ok none := by
  have hnc : ¬ (method = "POST" ∨ method = "PUT" ∨ method = "PATCH") := by
    rcases hm with h | h <;> subst h <;> decide
  unfold buildRequestData
  rw [if_neg hnc]
  rfl

/-- Claim C8 (amended): for POST/PUT/PATCH the payload uses the first
present key among params, body, data; params maps and body maps are
expanded value by value, string body and string data are expanded as
one template, but a non-string data value is serialized as-is without
expansion; GET and DELETE build no payload. -/
theorem claim_C8_amended :
    (∀ (wl ctx ps : List (String × J)) (method : String),
       (method = "POST" ∨ method = "PUT" ∨ method = "PATCH") →
       dget wl "params" = some (J.dict ps) →
       ∃ ex, (ps.mapM (fun kv => do
           let s ← simple_template_expand (pyStr kv.2) (J.dict ctx)
           pure (kv.1, J.str s)) : PyM (List (String × J))) = Except.ok ex ∧
         buildRequestData (J.dict wl) ctx method =
           Except.ok (some (jsonDumps (J.dict ex)))) ∧
    (∀ (wl ctx : List (String × J)) (bs : String) (method : String),
       (method = "POST" ∨ method = "PUT" ∨ method = "PATCH") →
       dget wl "params" = none → dget wl "body" = some (J.str bs) →
       ∃ s, simple_template_expand bs (J.dict ctx) = Except.ok s ∧
         buildRequestData (J.dict wl) ctx method = Except.ok (some s)) ∧
    (∀ (wl ctx bs : List (String × J)) (method : String),
       (method = "POST" ∨ method = "PUT" ∨ method = "PATCH") →
       dget wl "params" = none → dget wl "body" = some (J.dict bs) →
       ∃ ex, (bs.mapM (fun kv => do
           let s ← simple_template_expand (pyStr kv.2) (J.dict ctx)
           pure (kv.1, J.str s)) : PyM (List (String × J))) = Except.ok ex ∧
         buildRequestData (J.dict wl) ctx method =
           Except.ok (some (jsonDumps (J.dict ex)))) ∧
    (∀ (wl ctx : List (String × J)) (ds : String) (method : String),
       (method = "POST" ∨ method = "PUT" ∨ method = "PATCH") →
       dget wl "params" = none → dget wl "body" = none →
       dget wl "data" = some (J.str ds) →
       ∃ s, simple_template_expand ds (J.dict ctx) = Except.ok s ∧
         buildRequestData (J.dict wl) ctx method = Except.ok (some s)) ∧
    (∀ (wl ctx : List (String × J)) (d : J) (method : String),
       (method = "POST" ∨ method = "PUT" ∨ method = "PATCH") →
       dget wl "params" = none → dget wl "body" = none →
       dget wl "data" = some d → (∀ s, d ≠ J.str s) →
       buildRequestData (J.dict wl) ctx method =
         Except.ok (some (jsonDumps d))) ∧
    (∀ (wl ctx : List (String × J)) (method : String),
       (method = "GET" ∨ method = "DELETE") →
       buildRequestData (J.dict wl) ctx method = Except.ok none) :=
  ⟨fun wl ctx ps method hm hp => buildRequestData_params wl ctx ps method hm hp,
   fun wl ctx bs method hm h1 h2 =>
     buildRequestData_body_str wl ctx bs method hm h1 h2,
   fun wl ctx bs method hm h1 h2 =>
     buildRequestData_body_dict wl ctx bs method hm h1 h2,
   fun wl ctx ds method hm h1 h2 h3 =>
     buildRequestData_data_str wl ctx ds method hm h1 h2 h3,
   fun wl ctx d method hm h1 h2 h3 h4 =>
     buildRequestData_data_raw wl ctx d method hm h1 h2 h3 h4,
   fun wl ctx method hm => buildRequestData_get_delete wl ctx method hm⟩

/-- Witness for claim C8 (amended): params win over data and are
expanded value by value, and a GET webhook builds no payload. -/
theorem claim_C8_amended_witness :
    buildRequestData
      (J.dict [("params", J.dict [("k", J.str "$\x7bargs.x\x7d")]),
               ("data", J.dict [("z", J.str "ignored")])])
      (initContext [("x", J.str "V")]) "POST" =
      Except.ok (some "\x7b\"k\": \"V\"\x7d") ∧
    buildRequestData
      (J.dict [("params", J.dict [("k", J.str "$\x7bargs.x\x7d")])])
      (initContext [("x", J.str "V")]) "GET" = Except.ok none := by
  constructor
  · obtain ⟨ex, hex, hb⟩ := claim_C8_amended.1
      [("params", J.dict [("k", J.str "$\x7bargs.x\x7d")]),
       ("data", J.dict [("z", J.str "ignored")])]
      (initContext [("x", J.str "V")])
      [("k", J.str "$\x7bargs.x\x7d")] "POST" (Or.inl rfl) rfl
    rw [show (([("k", J.str "$\x7bargs.x\x7d")].mapM (fun kv => do
          let s ← simple_template_expand (pyStr kv.2)
            (J.dict (initContext [("x", J.str "V")]))
          pure (kv.1, J.str s))) : PyM (List (String × J))) =
        Except.ok [("k", J.str "V")] from rfl] at hex
    injection hex with hex'
    rw [← hex'] at hb
    exact hb
  · exact claim_C8_amended.2.2.2.2.2
      [("params", J.dict [("k", J.str "$\x7bargs.x\x7d")])]
      (initContext [("x", J.str "V")]) "GET" (Or.inl rfl)
